import Mathlib

/-!
Verification of the NACA wing-profile generator (`naca.py`).

The Python source is shallowly embedded here.  Parameter decoding works on
small integers whose float arithmetic is exact, so it is embedded over `ℚ`
(exact decimal literals stand for the Python decimal literals); the geometric
pipeline (square roots, trigonometry) is embedded over `ℝ`.  `numpy` arrays
become `List ℝ`, elementwise `numpy.where` masks become pointwise `if`.
-/

namespace NACA

/-- Decoded state of `NACA_4.__init__` (`naca.py` lines 93-102). -/
structure Naca4 where
  p : ℚ
  t : ℚ
  m : ℚ
  cl : ℚ
  num_points : ℕ
  hcs : Bool
deriving DecidableEq

/-- Decoded state of `NACA_5.__init__` (`naca.py` lines 202-228). -/
structure Naca5 where
  cl : ℚ
  p : ℚ
  t : ℚ
  m : ℚ
  k1 : ℚ
  num_points : ℕ
  hcs : Bool
deriving DecidableEq

/-- The error kinds named by the design documentation for the failure modes of
construction (the source surfaces them as `assert` failures). -/
inductive Naca_Error where
  | invalid_designation
  | unsupported_mean_line_identifier
  | invalid_sample_count
deriving DecidableEq

/-- Embedding of `numpy.linspace(0, 1, N)`: `N` uniform samples on `[0,1]`.
For `N = 1` numpy returns `[0.0]`, matched here by `0 / 0 = 0`. -/
noncomputable def linspace01 (N : ℕ) : List ℝ :=
  (List.range N).map (fun i : ℕ => (i : ℝ) / ((N : ℝ) - 1))

/-- Embedding of `NACA_Base._half_cosine_spacing(0, 1, N)` (`naca.py` lines 51-69):
`x_i = 1 - cos(π/2 · t_i)` over `N` uniform `t_i`. -/
noncomputable def half_cosine_spacing (N : ℕ) : List ℝ :=
  (linspace01 N).map (fun t => 1 - Real.cos (Real.pi * 0.5 * t))

/-- The chordwise sample sequence chosen in `NACA_Base.__init__` (line 34). -/
noncomputable def x_points (b : Bool) (N : ℕ) : List ℝ :=
  if b then half_cosine_spacing N else linspace01 N

/-- Embedding of `NACA_4.__init__` (lines 93-102) together with the range assertion of
`NACA_Base.__init__` (line 33, `0 <= n <= 99999`).  No check whatsoever is
performed on `num_points`.  Float modulo on these small nonnegative integers
is exact, hence integer `%` here. -/
def naca4_init (n : ℤ) (N : ℕ) (b : Bool) : Except Naca_Error Naca4 :=
  if 0 ≤ n ∧ n ≤ 99999 then
    .ok { p := ((n % 1000 - n % 100 : ℤ) : ℚ) / 1000
        , t := ((n % 100 : ℤ) : ℚ) / 100
        , m := ((n - n % 1000 : ℤ) : ℚ) / 100000
        , cl := 1
        , num_points := N
        , hcs := b }
  else
    .error .invalid_designation

/-- The fixed mean-line table of `NACA_5.__init__` (lines 206-215),
keyed by the three-digit identifier. -/
def mean_line_map (k : ℤ) : Option (ℚ × ℚ) :=
  if k = 210 then some (0.0580, 361.400)
  else if k = 220 then some (0.1260, 51.640)
  else if k = 221 then some (0.1300, 51.990)
  else if k = 230 then some (0.2025, 15.957)
  else if k = 231 then some (0.2170, 15.793)
  else if k = 240 then some (0.2900, 6.643)
  else if k = 241 then some (0.3180, 6.520)
  else if k = 250 then some (0.3910, 3.230)
  else if k = 251 then some (0.4410, 3.191)
  else none

/-- Python's `float('%.3f' % q)`: round to three decimal places (the table
values involved never sit on a rounding tie, so the tie-breaking rule is
irrelevant here). -/
def round3 (q : ℚ) : ℚ := (round (q * 1000) : ℚ) / 1000

/-- Embedding of `NACA_5.__init__` (lines 202-228) with the range assertion of
`NACA_Base.__init__`.  The mean-line assertion (line 217) fires before the
digit decoding (lines 222-226); every identifier in the table is `≥ 210`, so
on the success path `n ≥ 21000` has exactly five decimal digits and the
string slicing of the source equals the integer arithmetic used here
(`str(n)[0] = n / 10000`, `str(n)[1:3] = n / 100 % 100`,
`str(n)[3:5] = n % 100`).  `identifier = int(n / 100)` (line 204). -/
def naca5_init (n : ℤ) (N : ℕ) (b : Bool) : Except Naca_Error Naca5 :=
  if 0 ≤ n ∧ n ≤ 99999 then
    match mean_line_map (n / 100) with
    | some mk =>
        .ok { cl := ((n / 10000 : ℤ) : ℚ) * 3 / 2 / 10
            , p := round3 (((n / 100 % 100 : ℤ) : ℚ) / 2 / 100)
            , t := ((n % 100 : ℤ) : ℚ) / 100
            , m := mk.1
            , k1 := mk.2
            , num_points := N
            , hcs := b }
    | none => .error .unsupported_mean_line_identifier
  else
    .error .invalid_designation

/-- Embedding of `NACA_4._mean_camber_line` (lines 104-118); `x_over_c = x / cl` (line 102).
For `p = 0` the source produces the all-zero array. -/
noncomputable def mean_camber_line_4 (a : Naca4) (x : ℝ) : ℝ :=
  if a.p ≠ 0 then
    if 0 ≤ x ∧ x ≤ (a.cl : ℝ) * a.p then
      (a.m : ℝ) * (x / (a.p : ℝ) ^ 2) * (2 * (a.p : ℝ) - x / (a.cl : ℝ))
    else
      (a.m : ℝ) * (((a.cl : ℝ) - x) / (1 - (a.p : ℝ)) ^ 2) *
        (1 + x / (a.cl : ℝ) - 2 * (a.p : ℝ))
  else 0

/-- Embedding of `NACA_4._dyc_over_dx` (lines 144-158). -/
noncomputable def dyc_over_dx_4 (a : Naca4) (x : ℝ) : ℝ :=
  if a.p ≠ 0 then
    if 0 ≤ x ∧ x ≤ (a.cl : ℝ) * a.p then
      2 * (a.m : ℝ) / (a.p : ℝ) ^ 2 * ((a.p : ℝ) - x / (a.cl : ℝ))
    else
      2 * (a.m : ℝ) / (1 - (a.p : ℝ)) ^ 2 * ((a.p : ℝ) - x / (a.cl : ℝ))
  else 0

/-- Embedding of `NACA_4._thickness` (lines 160-175). -/
noncomputable def thickness_4 (a : Naca4) (x : ℝ) : ℝ :=
  5 * (a.t : ℝ) * (a.cl : ℝ) *
    (0.2969 * Real.sqrt (x / (a.cl : ℝ)) - 0.1260 * (x / (a.cl : ℝ)) -
      0.3516 * (x / (a.cl : ℝ)) ^ 2 + 0.2843 * (x / (a.cl : ℝ)) ^ 3 -
      0.1015 * (x / (a.cl : ℝ)) ^ 4)

/-- Component `x_upper` of `NACA_4._calculate_points` (line 135). -/
noncomputable def x_upper_4 (a : Naca4) : List ℝ :=
  (x_points a.hcs a.num_points).map fun x =>
    x - thickness_4 a x * Real.sin (Real.arctan (dyc_over_dx_4 a x))

/-- Component `y_upper` of `NACA_4._calculate_points` (line 136). -/
noncomputable def y_upper_4 (a : Naca4) : List ℝ :=
  (x_points a.hcs a.num_points).map fun x =>
    mean_camber_line_4 a x + thickness_4 a x * Real.cos (Real.arctan (dyc_over_dx_4 a x))

/-- Component `x_lower` of `NACA_4._calculate_points` (line 137). -/
noncomputable def x_lower_4 (a : Naca4) : List ℝ :=
  (x_points a.hcs a.num_points).map fun x =>
    x + thickness_4 a x * Real.sin (Real.arctan (dyc_over_dx_4 a x))

/-- Component `y_lower` of `NACA_4._calculate_points` (line 138). -/
noncomputable def y_lower_4 (a : Naca4) : List ℝ :=
  (x_points a.hcs a.num_points).map fun x =>
    mean_camber_line_4 a x - thickness_4 a x * Real.cos (Real.arctan (dyc_over_dx_4 a x))

/-- Embedding of `NACA_4._calculate_points` (lines 120-142): outline = reversed upper
surface followed by the lower surface without its first point. -/
noncomputable def calculate_points_4 (a : Naca4) : List ℝ × List ℝ :=
  ((x_upper_4 a).reverse ++ (x_lower_4 a).drop 1,
   (y_upper_4 a).reverse ++ (y_lower_4 a).drop 1)

/-- Embedding of `NACA_5._thickness` (lines 298-312), with the coefficient tuple of
line 220 (trailing-edge coefficient `-0.1036`). -/
noncomputable def thickness_5 (a : Naca5) (x : ℝ) : ℝ :=
  5 * (a.t : ℝ) *
    (0.2969 * Real.sqrt x - 0.1260 * x - 0.3516 * x ^ 2 + 0.2843 * x ^ 3 -
      0.1036 * x ^ 4)

/-- Embedding of `NACA_5._dyc_over_dx` (lines 280-296).  Note that the `x > p` branch of
the source is the constant `cl/0.3 · (1/6) · k1 · m³`, with no minus sign. -/
noncomputable def dyc_over_dx_5 (a : Naca5) (x : ℝ) : ℝ :=
  if x ≤ (a.p : ℝ) then
    (a.cl : ℝ) / 0.3 * (1 / 6) * (a.k1 : ℝ) *
      (3 * x ^ 2 - 6 * (a.m : ℝ) * x + (a.m : ℝ) ^ 2 * (3 - (a.m : ℝ)))
  else
    (a.cl : ℝ) / 0.3 * (1 / 6) * (a.k1 : ℝ) * (a.m : ℝ) ^ 3

/-- The piecewise camber cubic `yc` of `NACA_5._calculate_points`
(lines 261-265). -/
noncomputable def yc_5 (a : Naca5) (x : ℝ) : ℝ :=
  if x ≤ (a.p : ℝ) then
    (a.k1 : ℝ) / 6 *
      (x ^ 3 - 3 * (a.m : ℝ) * x ^ 2 + (a.m : ℝ) ^ 2 * (3 - (a.m : ℝ)) * x)
  else
    (a.k1 : ℝ) / 6 * (a.m : ℝ) ^ 3 * (1 - x)

/-- Scaling `zc = cl / 0.3 * yc` (line 266). -/
noncomputable def zc_5 (a : Naca5) (x : ℝ) : ℝ := (a.cl : ℝ) / 0.3 * yc_5 a x

/-- The `p == 0` branch of `NACA_5._calculate_points` (lines 253-258,
275-278). -/
noncomputable def calculate_points_5_sym (a : Naca5) : List ℝ × List ℝ :=
  ((x_points a.hcs a.num_points).reverse ++ (x_points a.hcs a.num_points).drop 1,
   ((x_points a.hcs a.num_points).map (thickness_5 a)).reverse ++
     ((x_points a.hcs a.num_points).map fun x => -thickness_5 a x).drop 1)

/-- Component `x_upper` of the cambered branch of `NACA_5._calculate_points`
(line 270). -/
noncomputable def x_upper_5 (a : Naca5) : List ℝ :=
  (x_points a.hcs a.num_points).map fun x =>
    x - thickness_5 a x * Real.sin (Real.arctan (dyc_over_dx_5 a x))

/-- Component `y_upper` of the cambered branch of `NACA_5._calculate_points`
(line 271). -/
noncomputable def y_upper_5 (a : Naca5) : List ℝ :=
  (x_points a.hcs a.num_points).map fun x =>
    zc_5 a x + thickness_5 a x * Real.cos (Real.arctan (dyc_over_dx_5 a x))

/-- Component `x_lower` of the cambered branch of `NACA_5._calculate_points`
(line 272). -/
noncomputable def x_lower_5 (a : Naca5) : List ℝ :=
  (x_points a.hcs a.num_points).map fun x =>
    x + thickness_5 a x * Real.sin (Real.arctan (dyc_over_dx_5 a x))

/-- Component `y_lower` of the cambered branch of `NACA_5._calculate_points`
(line 273). -/
noncomputable def y_lower_5 (a : Naca5) : List ℝ :=
  (x_points a.hcs a.num_points).map fun x =>
    zc_5 a x - thickness_5 a x * Real.cos (Real.arctan (dyc_over_dx_5 a x))

/-- The `p != 0` branch of `NACA_5._calculate_points` assembled
(lines 259-278). -/
noncomputable def calculate_points_5_cambered (a : Naca5) : List ℝ × List ℝ :=
  ((x_upper_5 a).reverse ++ (x_lower_5 a).drop 1,
   (y_upper_5 a).reverse ++ (y_lower_5 a).drop 1)

/-- Embedding of `NACA_5._calculate_points` (lines 240-278). -/
noncomputable def calculate_points_5 (a : Naca5) : List ℝ × List ℝ :=
  if a.p = 0 then calculate_points_5_sym a else calculate_points_5_cambered a

/-- First spacing interval of a sample sequence (the gap adjacent to the
leading edge). -/
noncomputable def first_gap (l : List ℝ) : ℝ := l.getD 1 0 - l.getD 0 0

/-! ### Helper lemmas about the sample sequences and the outline assembly -/

lemma x_points_false (N : ℕ) : x_points false N = linspace01 N := rfl

lemma x_points_true (N : ℕ) : x_points true N = half_cosine_spacing N := rfl

lemma length_linspace01 (N : ℕ) : (linspace01 N).length = N := by
  rw [linspace01, List.length_map, List.length_range]

lemma length_half_cosine (N : ℕ) : (half_cosine_spacing N).length = N := by
  rw [half_cosine_spacing, List.length_map, length_linspace01]

lemma length_x_points (b : Bool) (N : ℕ) : (x_points b N).length = N := by
  cases b
  · rw [x_points_false, length_linspace01]
  · rw [x_points_true, length_half_cosine]

lemma linspace01_getD (N i : ℕ) (h : i < N) :
    (linspace01 N).getD i 0 = (i : ℝ) / ((N : ℝ) - 1) := by
  rw [linspace01, List.getD_eq_getElem?_getD, List.getElem?_map,
    List.getElem?_range h]
  rfl

lemma half_cosine_getD (N i : ℕ) (h : i < N) :
    (half_cosine_spacing N).getD i 0 =
      1 - Real.cos (Real.pi * 0.5 * ((i : ℝ) / ((N : ℝ) - 1))) := by
  rw [half_cosine_spacing, List.getD_eq_getElem?_getD, List.getElem?_map,
    linspace01, List.getElem?_map, List.getElem?_range h]
  rfl

lemma x_points_getD_zero (b : Bool) (N : ℕ) (h : 0 < N) :
    (x_points b N).getD 0 0 = 0 := by
  cases b
  · rw [x_points_false, linspace01_getD N 0 h]
    simp
  · rw [x_points_true, half_cosine_getD N 0 h]
    simp

lemma x_points_getD_last (b : Bool) (N : ℕ) (h : 2 ≤ N) :
    (x_points b N).getD (N - 1) 0 = 1 := by
  have h1 : N - 1 < N := by omega
  have h2 : ((N - 1 : ℕ) : ℝ) / ((N : ℝ) - 1) = 1 := by
    rw [Nat.cast_sub (by omega), Nat.cast_one, div_self]
    have hN : (2 : ℝ) ≤ (N : ℝ) := by exact_mod_cast h
    intro hc
    nlinarith
  cases b
  · rw [x_points_false, linspace01_getD N (N - 1) h1, h2]
  · rw [x_points_true, half_cosine_getD N (N - 1) h1, h2]
    have h3 : Real.pi * 0.5 * 1 = Real.pi / 2 := by ring
    rw [h3, Real.cos_pi_div_two, sub_zero]

lemma getD_rev_append_first {α : Type} (u l : List α) (d : α) {N i : ℕ}
    (hu : u.length = N) (hi : i < N) :
    (u.reverse ++ l.drop 1).getD i d = u.getD (N - 1 - i) d := by
  have h1 : i < u.reverse.length := by simp [hu, hi]
  rw [List.getD_eq_getElem?_getD, List.getElem?_append_left h1,
    List.getElem?_reverse (by simpa [hu] using hi), List.getD_eq_getElem?_getD, hu]

lemma getD_rev_append_second {α : Type} (u l : List α) (d : α) {N i : ℕ}
    (hu : u.length = N) (h1 : N ≤ i) :
    (u.reverse ++ l.drop 1).getD i d = l.getD (i - N + 1) d := by
  have hur : u.reverse.length = N := by rw [List.length_reverse, hu]
  have hle : u.reverse.length ≤ i := hur ▸ h1
  rw [List.getD_eq_getElem?_getD, List.getElem?_append_right hle, hur,
    List.getElem?_drop, List.getD_eq_getElem?_getD,
    show 1 + (i - N) = i - N + 1 by omega]

lemma getD_map_sample (f : ℝ → ℝ) (b : Bool) (N i : ℕ) (h : i < N) :
    ((x_points b N).map f).getD i 0 = f ((x_points b N).getD i 0) := by
  have h2 : i < (x_points b N).length := by rw [length_x_points]; exact h
  rw [List.getD_eq_getElem?_getD, List.getElem?_map,
    List.getElem?_eq_getElem h2, List.getD_eq_getElem?_getD,
    List.getElem?_eq_getElem h2]
  rfl

lemma naca4_init_ok {n : ℤ} {N : ℕ} {b : Bool} {a : Naca4}
    (h : naca4_init n N b = Except.ok a) :
    (0 ≤ n ∧ n ≤ 99999) ∧
    a = { p := ((n % 1000 - n % 100 : ℤ) : ℚ) / 1000
        , t := ((n % 100 : ℤ) : ℚ) / 100
        , m := ((n - n % 1000 : ℤ) : ℚ) / 100000
        , cl := 1
        , num_points := N
        , hcs := b } := by
  unfold naca4_init at h
  split_ifs at h with hc
  injection h with h2
  exact ⟨hc, h2.symm⟩

lemma naca5_init_ok {n : ℤ} {N : ℕ} {b : Bool} {a : Naca5}
    (h : naca5_init n N b = Except.ok a) :
    (0 ≤ n ∧ n ≤ 99999) ∧
    mean_line_map (n / 100) = some (a.m, a.k1) ∧
    a.cl = ((n / 10000 : ℤ) : ℚ) * 3 / 2 / 10 ∧
    a.p = round3 (((n / 100 % 100 : ℤ) : ℚ) / 2 / 100) ∧
    a.t = ((n % 100 : ℤ) : ℚ) / 100 ∧
    a.num_points = N ∧ a.hcs = b := by
  unfold naca5_init at h
  split_ifs at h with hc
  cases hmk : mean_line_map (n / 100) with
  | none =>
    rw [hmk] at h
    exact Except.noConfusion h
  | some mk =>
    rw [hmk] at h
    injection h with h2
    subst h2
    exact ⟨hc, rfl, rfl, rfl, rfl, rfl, rfl⟩

lemma mean_line_map_keys {k : ℤ} {mk : ℚ × ℚ} (h : mean_line_map k = some mk) :
    k = 210 ∨ k = 220 ∨ k = 221 ∨ k = 230 ∨ k = 231 ∨ k = 240 ∨ k = 241 ∨
      k = 250 ∨ k = 251 := by
  unfold mean_line_map at h
  split_ifs at h <;> simp_all

lemma thickness_4_at_zero (a : Naca4) : thickness_4 a 0 = 0 := by
  simp [thickness_4, Real.sqrt_zero, zero_div]

lemma thickness_5_at_zero (a : Naca5) : thickness_5 a 0 = 0 := by
  simp [thickness_5, Real.sqrt_zero]

lemma thickness_5_at_one (a : Naca5) : thickness_5 a 1 = 0 := by
  simp [thickness_5, Real.sqrt_one]
  norm_num

lemma length_calculate_points_4 (a : Naca4) :
    (calculate_points_4 a).1.length = 2 * a.num_points - 1 ∧
    (calculate_points_4 a).2.length = 2 * a.num_points - 1 := by
  constructor <;>
    · simp only [calculate_points_4, List.length_append, List.length_reverse,
        List.length_drop, x_upper_4, x_lower_4, y_upper_4, y_lower_4,
        List.length_map, length_x_points]
      omega

lemma length_calculate_points_5_cambered (a : Naca5) :
    (calculate_points_5_cambered a).1.length = 2 * a.num_points - 1 ∧
    (calculate_points_5_cambered a).2.length = 2 * a.num_points - 1 := by
  constructor <;>
    · simp only [calculate_points_5_cambered, List.length_append,
        List.length_reverse, List.length_drop, x_upper_5, x_lower_5,
        y_upper_5, y_lower_5, List.length_map, length_x_points]
      omega

lemma naca5_ok_p_lb {n : ℤ} {N : ℕ} {b : Bool} {a : Naca5}
    (h : naca5_init n N b = Except.ok a) : 1 / 20 ≤ a.p := by
  obtain ⟨-, hmk, -, hp, -⟩ := naca5_init_ok h
  have hk := mean_line_map_keys hmk
  rw [hp]
  rcases hk with hk | hk | hk | hk | hk | hk | hk | hk | hk <;>
    rw [hk] <;> norm_num [round3]

lemma calculate_points_4_fst (a : Naca4) :
    (calculate_points_4 a).1 = (x_upper_4 a).reverse ++ (x_lower_4 a).drop 1 := rfl

lemma calculate_points_4_snd (a : Naca4) :
    (calculate_points_4 a).2 = (y_upper_4 a).reverse ++ (y_lower_4 a).drop 1 := rfl

lemma calculate_points_5_cambered_fst (a : Naca5) :
    (calculate_points_5_cambered a).1 =
      (x_upper_5 a).reverse ++ (x_lower_5 a).drop 1 := rfl

lemma calculate_points_5_cambered_snd (a : Naca5) :
    (calculate_points_5_cambered a).2 =
      (y_upper_5 a).reverse ++ (y_lower_5 a).drop 1 := rfl

lemma length_x_upper_4 (a : Naca4) : (x_upper_4 a).length = a.num_points := by
  rw [x_upper_4, List.length_map, length_x_points]

lemma length_y_upper_4 (a : Naca4) : (y_upper_4 a).length = a.num_points := by
  rw [y_upper_4, List.length_map, length_x_points]

lemma length_x_upper_5 (a : Naca5) : (x_upper_5 a).length = a.num_points := by
  rw [x_upper_5, List.length_map, length_x_points]

lemma length_y_upper_5 (a : Naca5) : (y_upper_5 a).length = a.num_points := by
  rw [y_upper_5, List.length_map, length_x_points]

lemma x_upper_4_getD (a : Naca4) (k : ℕ) (hk : k < a.num_points) :
    (x_upper_4 a).getD k 0 =
      (x_points a.hcs a.num_points).getD k 0 -
        thickness_4 a ((x_points a.hcs a.num_points).getD k 0) *
          Real.sin (Real.arctan (dyc_over_dx_4 a
            ((x_points a.hcs a.num_points).getD k 0))) := by
  rw [x_upper_4, getD_map_sample _ _ _ _ hk]

lemma y_upper_4_getD (a : Naca4) (k : ℕ) (hk : k < a.num_points) :
    (y_upper_4 a).getD k 0 =
      mean_camber_line_4 a ((x_points a.hcs a.num_points).getD k 0) +
        thickness_4 a ((x_points a.hcs a.num_points).getD k 0) *
          Real.cos (Real.arctan (dyc_over_dx_4 a
            ((x_points a.hcs a.num_points).getD k 0))) := by
  rw [y_upper_4, getD_map_sample _ _ _ _ hk]

lemma x_lower_4_getD (a : Naca4) (k : ℕ) (hk : k < a.num_points) :
    (x_lower_4 a).getD k 0 =
      (x_points a.hcs a.num_points).getD k 0 +
        thickness_4 a ((x_points a.hcs a.num_points).getD k 0) *
          Real.sin (Real.arctan (dyc_over_dx_4 a
            ((x_points a.hcs a.num_points).getD k 0))) := by
  rw [x_lower_4, getD_map_sample _ _ _ _ hk]

lemma y_lower_4_getD (a : Naca4) (k : ℕ) (hk : k < a.num_points) :
    (y_lower_4 a).getD k 0 =
      mean_camber_line_4 a ((x_points a.hcs a.num_points).getD k 0) -
        thickness_4 a ((x_points a.hcs a.num_points).getD k 0) *
          Real.cos (Real.arctan (dyc_over_dx_4 a
            ((x_points a.hcs a.num_points).getD k 0))) := by
  rw [y_lower_4, getD_map_sample _ _ _ _ hk]

lemma x_upper_5_getD (a : Naca5) (k : ℕ) (hk : k < a.num_points) :
    (x_upper_5 a).getD k 0 =
      (x_points a.hcs a.num_points).getD k 0 -
        thickness_5 a ((x_points a.hcs a.num_points).getD k 0) *
          Real.sin (Real.arctan (dyc_over_dx_5 a
            ((x_points a.hcs a.num_points).getD k 0))) := by
  rw [x_upper_5, getD_map_sample _ _ _ _ hk]

lemma y_upper_5_getD (a : Naca5) (k : ℕ) (hk : k < a.num_points) :
    (y_upper_5 a).getD k 0 =
      zc_5 a ((x_points a.hcs a.num_points).getD k 0) +
        thickness_5 a ((x_points a.hcs a.num_points).getD k 0) *
          Real.cos (Real.arctan (dyc_over_dx_5 a
            ((x_points a.hcs a.num_points).getD k 0))) := by
  rw [y_upper_5, getD_map_sample _ _ _ _ hk]

lemma x_lower_5_getD (a : Naca5) (k : ℕ) (hk : k < a.num_points) :
    (x_lower_5 a).getD k 0 =
      (x_points a.hcs a.num_points).getD k 0 +
        thickness_5 a ((x_points a.hcs a.num_points).getD k 0) *
          Real.sin (Real.arctan (dyc_over_dx_5 a
            ((x_points a.hcs a.num_points).getD k 0))) := by
  rw [x_lower_5, getD_map_sample _ _ _ _ hk]

lemma y_lower_5_getD (a : Naca5) (k : ℕ) (hk : k < a.num_points) :
    (y_lower_5 a).getD k 0 =
      zc_5 a ((x_points a.hcs a.num_points).getD k 0) -
        thickness_5 a ((x_points a.hcs a.num_points).getD k 0) *
          Real.cos (Real.arctan (dyc_over_dx_5 a
            ((x_points a.hcs a.num_points).getD k 0))) := by
  rw [y_lower_5, getD_map_sample _ _ _ _ hk]

lemma mean_camber_line_4_p0 (a : Naca4) (hp : a.p = 0) (x : ℝ) :
    mean_camber_line_4 a x = 0 := by
  rw [mean_camber_line_4, if_neg (by simp [hp])]

lemma dyc_over_dx_4_p0 (a : Naca4) (hp : a.p = 0) (x : ℝ) :
    dyc_over_dx_4 a x = 0 := by
  rw [dyc_over_dx_4, if_neg (by simp [hp])]

lemma thickness_4_at_one (a : Naca4) (hcl : a.cl = 1) :
    thickness_4 a 1 = 21 / 2000 * (a.t : ℝ) := by
  rw [thickness_4, hcl]
  norm_num [Real.sqrt_one]
  ring

/-! ### Claims -/

lemma outline_4_le_x (a : Naca4) (hN : 2 ≤ a.num_points) :
    (calculate_points_4 a).1.getD (a.num_points - 1) 0 = 0 := by
  rw [calculate_points_4_fst,
    getD_rev_append_first _ _ _ (length_x_upper_4 a) (by omega),
    Nat.sub_self, x_upper_4_getD a 0 (by omega),
    x_points_getD_zero _ _ (by omega), thickness_4_at_zero]
  ring

lemma outline_5_le_x (a : Naca5) (hN : 2 ≤ a.num_points) :
    (calculate_points_5_cambered a).1.getD (a.num_points - 1) 0 = 0 := by
  rw [calculate_points_5_cambered_fst,
    getD_rev_append_first _ _ _ (length_x_upper_5 a) (by omega),
    Nat.sub_self, x_upper_5_getD a 0 (by omega),
    x_points_getD_zero _ _ (by omega), thickness_5_at_zero]
  ring

/-- C2: for both families, the returned outline consists of two coordinate
sequences of length `2·N − 1` (reversed upper surface followed by the lower
surface with its leading-edge element dropped), and the x-coordinate at index
`N − 1` — the leading edge — is 0. -/
theorem outline_shape (n4 n5 : ℤ) (N : ℕ) (b : Bool) (a4 : Naca4) (a5 : Naca5)
    (h4 : naca4_init n4 N b = Except.ok a4)
    (h5 : naca5_init n5 N b = Except.ok a5) (hN : 2 ≤ N) :
    (calculate_points_4 a4).1.length = 2 * N - 1 ∧
    (calculate_points_4 a4).2.length = 2 * N - 1 ∧
    (calculate_points_4 a4).1.getD (N - 1) 0 = 0 ∧
    (calculate_points_5 a5).1.length = 2 * N - 1 ∧
    (calculate_points_5 a5).2.length = 2 * N - 1 ∧
    (calculate_points_5 a5).1.getD (N - 1) 0 = 0 := by
  obtain ⟨-, ha4⟩ := naca4_init_ok h4
  have hnum4 : a4.num_points = N := by rw [ha4]
  have hp5 : a5.p ≠ 0 := by
    have := naca5_ok_p_lb h5
    intro hc
    rw [hc] at this
    norm_num at this
  have hnum5 : a5.num_points = N := (naca5_init_ok h5).2.2.2.2.2.1
  have hcamb : calculate_points_5 a5 = calculate_points_5_cambered a5 := by
    rw [calculate_points_5, if_neg hp5]
  refine ⟨?_, ?_, ?_, ?_, ?_, ?_⟩
  · rw [(length_calculate_points_4 a4).1, hnum4]
  · rw [(length_calculate_points_4 a4).2, hnum4]
  · rw [← hnum4]
    exact outline_4_le_x a4 (by omega)
  · rw [hcamb, (length_calculate_points_5_cambered a5).1, hnum5]
  · rw [hcamb, (length_calculate_points_5_cambered a5).2, hnum5]
  · rw [hcamb, ← hnum5]
    exact outline_5_le_x a5 (by omega)

/-- Witness for `outline_shape` at designations 18 (4-digit) and 23012
(5-digit) with `N = 2`. -/
theorem outline_shape_witness :
    (calculate_points_4 ⟨0, 9/50, 0, 1, 2, true⟩).1.length = 2 * 2 - 1 ∧
    (calculate_points_4 ⟨0, 9/50, 0, 1, 2, true⟩).2.length = 2 * 2 - 1 ∧
    (calculate_points_4 ⟨0, 9/50, 0, 1, 2, true⟩).1.getD (2 - 1) 0 = 0 ∧
    (calculate_points_5 ⟨3/10, 3/20, 3/25, 81/400, 15957/1000, 2, true⟩).1.length =
      2 * 2 - 1 ∧
    (calculate_points_5 ⟨3/10, 3/20, 3/25, 81/400, 15957/1000, 2, true⟩).2.length =
      2 * 2 - 1 ∧
    (calculate_points_5 ⟨3/10, 3/20, 3/25, 81/400, 15957/1000, 2, true⟩).1.getD
      (2 - 1) 0 = 0 :=
  outline_shape 18 23012 2 true ⟨0, 9/50, 0, 1, 2, true⟩
    ⟨3/10, 3/20, 3/25, 81/400, 15957/1000, 2, true⟩
    (by unfold naca4_init; norm_num)
    (by unfold naca5_init mean_line_map round3; norm_num) (by norm_num)

/-- C3: a symmetric 4-digit airfoil (`p = 0`) has an outline that is
mirror-symmetric about the chord line: away from the shared leading-edge
index, `x[i] = x[2N−2−i]` and `y[i] = −y[2N−2−i]`. -/
theorem symmetric_mirror_4 (n : ℤ) (N : ℕ) (b : Bool) (a : Naca4) (i : ℕ)
    (h : naca4_init n N b = Except.ok a) (hp : a.p = 0) (hN : 2 ≤ N)
    (hi : i < N - 1) :
    (calculate_points_4 a).1.getD i 0 =
      (calculate_points_4 a).1.getD (2 * N - 2 - i) 0 ∧
    (calculate_points_4 a).2.getD i 0 =
      -((calculate_points_4 a).2.getD (2 * N - 2 - i) 0) := by
  obtain ⟨-, ha⟩ := naca4_init_ok h
  have hnum : a.num_points = N := by rw [ha]
  constructor
  · rw [calculate_points_4_fst,
      getD_rev_append_first _ _ _ ((length_x_upper_4 a).trans hnum) (by omega),
      getD_rev_append_second _ _ _ ((length_x_upper_4 a).trans hnum) (by omega),
      show 2 * N - 2 - i - N + 1 = N - 1 - i by omega,
      x_upper_4_getD a (N - 1 - i) (by omega), x_lower_4_getD a (N - 1 - i) (by omega),
      dyc_over_dx_4_p0 a hp, Real.arctan_zero, Real.sin_zero]
    ring
  · rw [calculate_points_4_snd,
      getD_rev_append_first _ _ _ ((length_y_upper_4 a).trans hnum) (by omega),
      getD_rev_append_second _ _ _ ((length_y_upper_4 a).trans hnum) (by omega),
      show 2 * N - 2 - i - N + 1 = N - 1 - i by omega,
      y_upper_4_getD a (N - 1 - i) (by omega), y_lower_4_getD a (N - 1 - i) (by omega),
      mean_camber_line_4_p0 a hp, dyc_over_dx_4_p0 a hp, Real.arctan_zero,
      Real.cos_zero]
    ring

/-- Witness for `symmetric_mirror_4` at designation 18, `N = 2`, `i = 0`. -/
theorem symmetric_mirror_4_witness :
    (calculate_points_4 ⟨0, 9/50, 0, 1, 2, true⟩).1.getD 0 0 =
      (calculate_points_4 ⟨0, 9/50, 0, 1, 2, true⟩).1.getD (2 * 2 - 2 - 0) 0 ∧
    (calculate_points_4 ⟨0, 9/50, 0, 1, 2, true⟩).2.getD 0 0 =
      -((calculate_points_4 ⟨0, 9/50, 0, 1, 2, true⟩).2.getD (2 * 2 - 2 - 0) 0) :=
  symmetric_mirror_4 18 2 true ⟨0, 9/50, 0, 1, 2, true⟩ 0
    (by unfold naca4_init; norm_num) rfl (by norm_num) (by norm_num)

/-- C4: for every 4-digit designation accepted by the constructor, the decoded
parameters are exactly `p = (n % 1000 - n % 100)/1000`, `t = (n % 100)/100`,
`m = (n - n % 1000)/100000` and `cl = 1.0`. -/
theorem four_digit_parameter_decode (n : ℤ) (N : ℕ) (b : Bool) (a : Naca4)
    (h : naca4_init n N b = Except.ok a) :
    a.p = ((n % 1000 - n % 100 : ℤ) : ℚ) / 1000 ∧
    a.t = ((n % 100 : ℤ) : ℚ) / 100 ∧
    a.m = ((n - n % 1000 : ℤ) : ℚ) / 100000 ∧
    a.cl = 1 := by
  obtain ⟨-, h2⟩ := naca4_init_ok h
  subst h2
  exact ⟨rfl, rfl, rfl, rfl⟩

/-- Witness for `four_digit_parameter_decode` at designation 2412. -/
theorem four_digit_parameter_decode_witness :
    (⟨2/5, 3/25, 1/50, 1, 200, true⟩ : Naca4).p =
      ((2412 % 1000 - 2412 % 100 : ℤ) : ℚ) / 1000 ∧
    (⟨2/5, 3/25, 1/50, 1, 200, true⟩ : Naca4).t = ((2412 % 100 : ℤ) : ℚ) / 100 ∧
    (⟨2/5, 3/25, 1/50, 1, 200, true⟩ : Naca4).m =
      ((2412 - 2412 % 1000 : ℤ) : ℚ) / 100000 ∧
    (⟨2/5, 3/25, 1/50, 1, 200, true⟩ : Naca4).cl = 1 :=
  four_digit_parameter_decode 2412 200 true ⟨2/5, 3/25, 1/50, 1, 200, true⟩
    (by unfold naca4_init; norm_num)

/-- C5: within the valid range, a 5-digit construction succeeds exactly when
the three-digit identifier `n / 100` is a key of the fixed mean-line table, in
which case the tabulated `(m, k1)` pair is stored; a lookup miss is the hard
error `unsupported_mean_line_identifier`; the key set is exactly the nine
enumerated identifiers (no interpolation), and key 230 maps to
`(0.2025, 15.957)`. -/
theorem five_digit_mean_line_resolution (n : ℤ) (N : ℕ) (b : Bool)
    (h0 : 0 ≤ n) (h1 : n ≤ 99999) :
    (∀ mk : ℚ × ℚ, mean_line_map (n / 100) = some mk →
      naca5_init n N b = Except.ok
        { cl := ((n / 10000 : ℤ) : ℚ) * 3 / 2 / 10
        , p := round3 (((n / 100 % 100 : ℤ) : ℚ) / 2 / 100)
        , t := ((n % 100 : ℤ) : ℚ) / 100
        , m := mk.1, k1 := mk.2, num_points := N, hcs := b }) ∧
    (mean_line_map (n / 100) = none →
      naca5_init n N b = Except.error Naca_Error.unsupported_mean_line_identifier) ∧
    (∀ k : ℤ, (mean_line_map k).isSome = true ↔
      k ∈ ([210, 220, 221, 230, 231, 240, 241, 250, 251] : List ℤ)) ∧
    mean_line_map 230 = some (0.2025, 15.957) := by
  refine ⟨?_, ?_, ?_, by norm_num [mean_line_map]⟩
  · intro mk hmk
    unfold naca5_init
    rw [if_pos ⟨h0, h1⟩, hmk]
  · intro hnone
    unfold naca5_init
    rw [if_pos ⟨h0, h1⟩, hnone]
  · intro k
    unfold mean_line_map
    split_ifs with k1 k2 k3 k4 k5 k6 k7 k8 k9 <;> simp_all

/-- Witness for `five_digit_mean_line_resolution`: identifier 299 misses the
table and identifier 230 resolves to `(0.2025, 15.957)`. -/
theorem five_digit_mean_line_resolution_witness :
    naca5_init 29900 2 true =
      Except.error Naca_Error.unsupported_mean_line_identifier ∧
    mean_line_map 230 = some (0.2025, 15.957) :=
  ⟨(five_digit_mean_line_resolution 29900 2 true (by norm_num) (by norm_num)).2.1
      (by decide),
   (five_digit_mean_line_resolution 29900 2 true (by norm_num) (by norm_num)).2.2.2⟩

/-- C6 (counterexample): construction with `num_points = 1` does not fail — it
succeeds and produces a 1-point outline. -/
theorem sample_count_unchecked_cex :
    naca4_init 18 1 true = Except.ok ⟨0, 9/50, 0, 1, 1, true⟩ ∧
    (calculate_points_4 ⟨0, 9/50, 0, 1, 1, true⟩).1.length = 1 := by
  constructor
  · unfold naca4_init
    norm_num
  · exact (length_calculate_points_4 ⟨0, 9/50, 0, 1, 1, true⟩).1

/-- C6 (amended): no sample-count validation exists — no `num_points` value
ever yields the `invalid_sample_count` error, in either family. -/
theorem no_sample_count_validation (n : ℤ) (N : ℕ) (b : Bool) :
    naca4_init n N b ≠ Except.error Naca_Error.invalid_sample_count ∧
    naca5_init n N b ≠ Except.error Naca_Error.invalid_sample_count := by
  constructor
  · unfold naca4_init
    split_ifs <;> simp
  · unfold naca5_init
    split_ifs with hc
    · cases hmk : mean_line_map (n / 100) <;> simp
    · simp

/-- Witness for `no_sample_count_validation` at designation 18, `N = 1`. -/
theorem no_sample_count_validation_witness :
    naca4_init 18 1 true ≠ Except.error Naca_Error.invalid_sample_count ∧
    naca5_init 18 1 true ≠ Except.error Naca_Error.invalid_sample_count :=
  no_sample_count_validation 18 1 true

/-- C7 (counterexample): the 4-digit constructor accepts designation 10000,
which lies outside the claimed 4-digit range [0, 9999]. -/
theorem four_digit_range_cex :
    naca4_init 10000 2 true = Except.ok ⟨0, 0, 1/10, 1, 2, true⟩ := by
  unfold naca4_init
  norm_num

/-- C7 (amended): construction fails with `invalid_designation` exactly when
the designation lies outside [0, 99999] — the same range for both families. -/
theorem designation_range_check (n : ℤ) (N : ℕ) (b : Bool) :
    (naca4_init n N b = Except.error Naca_Error.invalid_designation ↔
      ¬(0 ≤ n ∧ n ≤ 99999)) ∧
    (naca5_init n N b = Except.error Naca_Error.invalid_designation ↔
      ¬(0 ≤ n ∧ n ≤ 99999)) := by
  constructor
  · unfold naca4_init
    split_ifs with hc <;> simp [hc]
  · unfold naca5_init
    split_ifs with hc
    · cases hmk : mean_line_map (n / 100) <;> simp [hc]
    · simp [hc]

/-- Witness for `designation_range_check` at designation 2412, `N = 200`. -/
theorem designation_range_check_witness :
    (naca4_init 2412 200 true = Except.error Naca_Error.invalid_designation ↔
      ¬((0 : ℤ) ≤ 2412 ∧ (2412 : ℤ) ≤ 99999)) ∧
    (naca5_init 2412 200 true = Except.error Naca_Error.invalid_designation ↔
      ¬((0 : ℤ) ≤ 2412 ∧ (2412 : ℤ) ≤ 99999)) :=
  designation_range_check 2412 200 true

lemma trailing_edge_closed_5 (a : Naca5) (hp : a.p ≠ 0) (hN : 2 ≤ a.num_points) :
    (calculate_points_5 a).1.getD 0 0 =
      (calculate_points_5 a).1.getD (2 * a.num_points - 2) 0 ∧
    (calculate_points_5 a).2.getD 0 0 =
      (calculate_points_5 a).2.getD (2 * a.num_points - 2) 0 := by
  constructor
  · rw [calculate_points_5, if_neg hp, calculate_points_5_cambered_fst,
      getD_rev_append_first _ _ _ (length_x_upper_5 a) (by omega),
      getD_rev_append_second _ _ _ (length_x_upper_5 a) (by omega),
      show a.num_points - 1 - 0 = a.num_points - 1 by omega,
      show 2 * a.num_points - 2 - a.num_points + 1 = a.num_points - 1 by omega,
      x_upper_5_getD a _ (by omega), x_lower_5_getD a _ (by omega),
      x_points_getD_last _ _ hN, thickness_5_at_one]
    ring
  · rw [calculate_points_5, if_neg hp, calculate_points_5_cambered_snd,
      getD_rev_append_first _ _ _ (length_y_upper_5 a) (by omega),
      getD_rev_append_second _ _ _ (length_y_upper_5 a) (by omega),
      show a.num_points - 1 - 0 = a.num_points - 1 by omega,
      show 2 * a.num_points - 2 - a.num_points + 1 = a.num_points - 1 by omega,
      y_upper_5_getD a _ (by omega), y_lower_5_getD a _ (by omega),
      x_points_getD_last _ _ hN, thickness_5_at_one]
    ring

/-- C9 (counterexample): for the valid 5-digit designation 23012 the first and
last outline points are the identical point — the 5-digit thickness
polynomial vanishes exactly at the trailing edge (its coefficients sum to 0),
so the claimed "distinct first and last points" fails for the 5-digit
family. -/
theorem trailing_edge_distinct_cex :
    naca5_init 23012 2 true =
      Except.ok ⟨3/10, 3/20, 3/25, 81/400, 15957/1000, 2, true⟩ ∧
    (calculate_points_5 ⟨3/10, 3/20, 3/25, 81/400, 15957/1000, 2, true⟩).1.getD 0 0 =
      (calculate_points_5 ⟨3/10, 3/20, 3/25, 81/400, 15957/1000, 2, true⟩).1.getD 2 0 ∧
    (calculate_points_5 ⟨3/10, 3/20, 3/25, 81/400, 15957/1000, 2, true⟩).2.getD 0 0 =
      (calculate_points_5 ⟨3/10, 3/20, 3/25, 81/400, 15957/1000, 2, true⟩).2.getD 2 0 := by
  refine ⟨by unfold naca5_init mean_line_map round3; norm_num, ?_, ?_⟩
  · exact (trailing_edge_closed_5 ⟨3/10, 3/20, 3/25, 81/400, 15957/1000, 2, true⟩
      (by norm_num) (by norm_num)).1
  · exact (trailing_edge_closed_5 ⟨3/10, 3/20, 3/25, 81/400, 15957/1000, 2, true⟩
      (by norm_num) (by norm_num)).2

/-- C9 (amended): for 4-digit airfoils with nonzero thickness parameter the
first and last outline points are distinct (the 4-digit trailing-edge
coefficient −0.1015 leaves an open trailing edge); for the 5-digit family
(and 4-digit with `t = 0`) the two points coincide. -/
theorem trailing_edge_open_4 (n : ℤ) (N : ℕ) (b : Bool) (a : Naca4)
    (h : naca4_init n N b = Except.ok a) (ht : a.t ≠ 0) (hN : 2 ≤ N) :
    (calculate_points_4 a).2.getD 0 0 ≠
      (calculate_points_4 a).2.getD (2 * N - 2) 0 := by
  obtain ⟨-, ha⟩ := naca4_init_ok h
  have hnum : a.num_points = N := by rw [ha]
  have hcl : a.cl = 1 := by rw [ha]
  rw [calculate_points_4_snd,
    getD_rev_append_first _ _ _ ((length_y_upper_4 a).trans hnum) (by omega),
    getD_rev_append_second _ _ _ ((length_y_upper_4 a).trans hnum) (by omega),
    show N - 1 - 0 = N - 1 by omega,
    show 2 * N - 2 - N + 1 = N - 1 by omega,
    y_upper_4_getD a _ (by omega), y_lower_4_getD a _ (by omega), hnum,
    x_points_getD_last _ _ hN, thickness_4_at_one a hcl]
  intro heq
  have hcos := Real.cos_arctan_pos (dyc_over_dx_4 a 1)
  have h0 : (21 / 2000 : ℝ) * (a.t : ℝ) *
      Real.cos (Real.arctan (dyc_over_dx_4 a 1)) = 0 := by linarith
  have ht0 : (a.t : ℝ) = 0 := by
    rcases mul_eq_zero.mp h0 with h1 | h1
    · rcases mul_eq_zero.mp h1 with h2 | h2
      · norm_num at h2
      · exact h2
    · exact absurd h1 (ne_of_gt hcos)
  exact ht (by exact_mod_cast ht0)

/-- Witness for `trailing_edge_open_4` at designation 18 (t = 0.18), N = 2. -/
theorem trailing_edge_open_4_witness :
    (calculate_points_4 ⟨0, 9/50, 0, 1, 2, true⟩).2.getD 0 0 ≠
      (calculate_points_4 ⟨0, 9/50, 0, 1, 2, true⟩).2.getD (2 * 2 - 2) 0 :=
  trailing_edge_open_4 18 2 true ⟨0, 9/50, 0, 1, 2, true⟩
    (by unfold naca4_init; norm_num) (by norm_num) (by norm_num)

/-- C8 (counterexample): at `N = 2` the half-cosine and uniform sequences
coincide (both are `[0, 1]`), so the half-cosine spacing near 0 is *not*
strictly smaller than the uniform spacing for every `N ≥ 2`. -/
theorem half_cosine_spacing_cex :
    ¬ first_gap (half_cosine_spacing 2) < first_gap (linspace01 2) := by
  have h1 : first_gap (half_cosine_spacing 2) = 1 := by
    rw [first_gap, half_cosine_getD 2 1 (by norm_num),
      half_cosine_getD 2 0 (by norm_num)]
    push_cast
    rw [show Real.pi * 0.5 * (1 / ((2 : ℝ) - 1)) = Real.pi / 2 by ring,
      show Real.pi * 0.5 * (0 / ((2 : ℝ) - 1)) = 0 by ring,
      Real.cos_zero, Real.cos_pi_div_two]
    norm_num
  have h2 : first_gap (linspace01 2) = 1 := by
    rw [first_gap, linspace01_getD 2 1 (by norm_num),
      linspace01_getD 2 0 (by norm_num)]
    norm_num
  rw [h1, h2]
  exact lt_irrefl 1

/-- C8 (amended): for every `N ≥ 2` the half-cosine sequence equals
`1 − cos(π/2 · t_i)` elementwise over the `N` uniform `t_i`, is strictly
increasing, starts at 0 and ends at 1; the spacing adjacent to 0 is strictly
smaller than the uniform spacing for `N ≥ 3` (at `N = 2` the two sequences
coincide and the spacings are equal). -/
theorem half_cosine_spacing_properties (N : ℕ) (hN : 2 ≤ N) :
    half_cosine_spacing N =
      (linspace01 N).map (fun t => 1 - Real.cos (Real.pi * 0.5 * t)) ∧
    (half_cosine_spacing N).Pairwise (· < ·) ∧
    (half_cosine_spacing N).getD 0 0 = 0 ∧
    (half_cosine_spacing N).getD (N - 1) 0 = 1 ∧
    (3 ≤ N → first_gap (half_cosine_spacing N) < first_gap (linspace01 N)) := by
  have hd : (0 : ℝ) < (N : ℝ) - 1 := by
    have h2 : (2 : ℝ) ≤ (N : ℝ) := by exact_mod_cast hN
    linarith
  refine ⟨rfl, ?_, ?_, ?_, ?_⟩
  · rw [List.pairwise_iff_getElem]
    intro i j hi hj hij
    have hlen : (half_cosine_spacing N).length = N := length_half_cosine N
    have hval : ∀ (k : ℕ) (hk : k < (half_cosine_spacing N).length),
        (half_cosine_spacing N)[k] =
          1 - Real.cos (Real.pi * 0.5 * ((k : ℝ) / ((N : ℝ) - 1))) := by
      intro k hk
      have h1 := half_cosine_getD N k (by omega)
      rwa [List.getD_eq_getElem?_getD, List.getElem?_eq_getElem hk,
        Option.getD_some] at h1
    rw [hval i hi, hval j hj]
    have hij2 : (i : ℝ) < (j : ℝ) := by exact_mod_cast hij
    have hjN : (j : ℝ) + 1 ≤ (N : ℝ) := by exact_mod_cast (by omega : j + 1 ≤ N)
    have hpi := Real.pi_pos
    apply sub_lt_sub_left
    apply Real.cos_lt_cos_of_nonneg_of_le_pi
    · have hq : 0 ≤ (i : ℝ) / ((N : ℝ) - 1) :=
        div_nonneg (Nat.cast_nonneg i) (le_of_lt hd)
      nlinarith
    · have hq : (j : ℝ) / ((N : ℝ) - 1) ≤ 1 := (div_le_one hd).mpr (by linarith)
      nlinarith
    · have hq : (i : ℝ) / ((N : ℝ) - 1) < (j : ℝ) / ((N : ℝ) - 1) := by gcongr
      nlinarith
  · rw [half_cosine_getD N 0 (by omega)]
    simp
  · exact x_points_getD_last true N hN
  · intro h3N
    have hd2 : (2 : ℝ) ≤ (N : ℝ) - 1 := by
      have h3 : (3 : ℝ) ≤ (N : ℝ) := by exact_mod_cast h3N
      linarith
    rw [first_gap, first_gap, half_cosine_getD N 1 (by omega),
      half_cosine_getD N 0 (by omega), linspace01_getD N 1 (by omega),
      linspace01_getD N 0 (by omega)]
    push_cast
    rw [zero_div, mul_zero, Real.cos_zero]
    have hu : (0 : ℝ) < 1 / ((N : ℝ) - 1) := by positivity
    have hu2 : 1 / ((N : ℝ) - 1) ≤ 1 / 2 := by
      rw [div_le_div_iff₀ hd (by norm_num)]
      linarith
    have hb := Real.one_sub_sq_div_two_le_cos
      (x := Real.pi * 0.5 * (1 / ((N : ℝ) - 1)))
    have hpi := Real.pi_pos
    have hpi4 := Real.pi_lt_four
    have hpisq : Real.pi ^ 2 < 16 := by nlinarith
    have hub : 1 - Real.cos (Real.pi * 0.5 * (1 / ((N : ℝ) - 1))) ≤
        (Real.pi * 0.5 * (1 / ((N : ℝ) - 1))) ^ 2 / 2 := by linarith
    have hlt : (Real.pi * 0.5 * (1 / ((N : ℝ) - 1))) ^ 2 / 2 <
        1 / ((N : ℝ) - 1) := by
      rw [show (Real.pi * 0.5 * (1 / ((N : ℝ) - 1))) ^ 2 / 2 =
          Real.pi ^ 2 * (1 / ((N : ℝ) - 1)) ^ 2 / 8 by ring,
        div_lt_iff₀ (by norm_num : (0 : ℝ) < 8)]
      nlinarith [mul_pos hu hu]
    linarith

/-- Witness for `half_cosine_spacing_properties` at `N = 3`. -/
theorem half_cosine_spacing_properties_witness :
    half_cosine_spacing 3 =
      (linspace01 3).map (fun t => 1 - Real.cos (Real.pi * 0.5 * t)) ∧
    (half_cosine_spacing 3).Pairwise (· < ·) ∧
    (half_cosine_spacing 3).getD 0 0 = 0 ∧
    (half_cosine_spacing 3).getD (3 - 1) 0 = 1 ∧
    (3 ≤ 3 → first_gap (half_cosine_spacing 3) < first_gap (linspace01 3)) :=
  half_cosine_spacing_properties 3 (by norm_num)

/-- C1 (code evaluated at the failing input): for the constructible 5-digit
designation 23012 (`cl = 0.3`, `p = 0.15`, `m = 0.2025`, `k1 = 15.957`) and
the sample `x = 1/2 > p`, the source's slope function returns the *positive*
constant `cl/0.3 · k1/6 · m³`, whereas the aft camber height
`zc = cl/0.3 · k1/6 · m³ · (1 − x)` has derivative equal to the *negation* of
that constant at `x = 1/2` — the `x > p` slope branch is missing a minus
sign. -/
theorem five_digit_slope_sign_bug :
    naca5_init 23012 200 true =
      Except.ok ⟨3/10, 3/20, 3/25, 81/400, 15957/1000, 200, true⟩ ∧
    dyc_over_dx_5 ⟨3/10, 3/20, 3/25, 81/400, 15957/1000, 200, true⟩ (1/2) =
      ((3 : ℝ)/10) / 0.3 * (1/6) * (15957/1000) * (81/400) ^ 3 ∧
    HasDerivAt (zc_5 ⟨3/10, 3/20, 3/25, 81/400, 15957/1000, 200, true⟩)
      (-(((3 : ℝ)/10) / 0.3 * (1/6) * (15957/1000) * (81/400) ^ 3)) (1/2) ∧
    ((3 : ℝ)/10) / 0.3 * (1/6) * (15957/1000) * (81/400) ^ 3 ≠
      -(((3 : ℝ)/10) / 0.3 * (1/6) * (15957/1000) * (81/400) ^ 3) := by
  refine ⟨by unfold naca5_init mean_line_map round3; norm_num, ?_, ?_, by norm_num⟩
  · rw [dyc_over_dx_5, if_neg (by norm_num)]
    norm_num
  · have hbase : HasDerivAt (fun x : ℝ => 1 - x) (-1) (1/2) :=
      (hasDerivAt_id (1/2 : ℝ)).const_sub 1
    have hmul : HasDerivAt
        (fun x : ℝ => (((3/10 : ℚ) : ℝ)) / 0.3 *
          (((15957/1000 : ℚ) : ℝ) / 6 * ((81/400 : ℚ) : ℝ) ^ 3 * (1 - x)))
        ((((3/10 : ℚ) : ℝ)) / 0.3 *
          (((15957/1000 : ℚ) : ℝ) / 6 * ((81/400 : ℚ) : ℝ) ^ 3 * (-1))) (1/2) := by
      exact ((hbase.const_mul
        (((15957/1000 : ℚ) : ℝ) / 6 * ((81/400 : ℚ) : ℝ) ^ 3)).const_mul
        ((((3/10 : ℚ) : ℝ)) / 0.3))
    have hev : zc_5 ⟨3/10, 3/20, 3/25, 81/400, 15957/1000, 200, true⟩ =ᶠ[nhds (1/2 : ℝ)]
        fun x : ℝ => (((3/10 : ℚ) : ℝ)) / 0.3 *
          (((15957/1000 : ℚ) : ℝ) / 6 * ((81/400 : ℚ) : ℝ) ^ 3 * (1 - x)) := by
      filter_upwards [eventually_gt_nhds
        (show (((3/20 : ℚ) : ℝ)) < 1/2 by norm_num)] with x hx
      rw [zc_5, yc_5, if_neg (not_le.mpr hx)]
    have hder := hmul.congr_of_eventuallyEq hev
    convert hder using 1
    push_cast
    ring

/-- C10: every successfully constructed 5-digit airfoil has `p ≥ 0.05`, hence
`p ≠ 0`, and the `p == 0` symmetric branch of `_calculate_points` is
unreachable: the cambered branch is always taken. -/
theorem five_digit_p_nonzero (n : ℤ) (N : ℕ) (b : Bool) (a : Naca5)
    (h : naca5_init n N b = Except.ok a) :
    1/20 ≤ a.p ∧ a.p ≠ 0 ∧ calculate_points_5 a = calculate_points_5_cambered a := by
  have hp := naca5_ok_p_lb h
  have hne : a.p ≠ 0 := by
    intro hc
    rw [hc] at hp
    norm_num at hp
  exact ⟨hp, hne, by rw [calculate_points_5, if_neg hne]⟩

/-- Witness for `five_digit_p_nonzero` at designation 23012. -/
theorem five_digit_p_nonzero_witness :
    1/20 ≤ (⟨3/10, 3/20, 3/25, 81/400, 15957/1000, 2, true⟩ : Naca5).p ∧
    (⟨3/10, 3/20, 3/25, 81/400, 15957/1000, 2, true⟩ : Naca5).p ≠ 0 ∧
    calculate_points_5 ⟨3/10, 3/20, 3/25, 81/400, 15957/1000, 2, true⟩ =
      calculate_points_5_cambered ⟨3/10, 3/20, 3/25, 81/400, 15957/1000, 2, true⟩ :=
  five_digit_p_nonzero 23012 2 true ⟨3/10, 3/20, 3/25, 81/400, 15957/1000, 2, true⟩
    (by unfold naca5_init mean_line_map round3; norm_num)

end NACA
